import Mathlib

/-!
# Verification of the DalekRL spatial engine against its specification

Shallow embedding of the parts of the DalekRL repository that the frozen
claims are about:

* `interfaces.py` — `Position` (`__gt__`, `__eq__`), `Traversable`
  (`try_movement`, `try_leaving`, `blocks_movement`);
* `maps.py` — the `Map` occupancy index (`add`, `remove`, `move`,
  `find_at_pos`, `find_all_at_pos`, `get_walk_cost`, `is_blocked`), the
  door-resolution pass of `TypeAMap.generate`, and the
  restart-on-rejection control flow of `TypeAMap.generate`;
* `tiles.py` — `MapPattern.__init__` (mask building and rotational
  de-duplication), `MapPattern.apply_to`, and the pattern de-duplication
  of `Tile.get_all_tiles`.

Python dictionaries keyed by `Position` values are modelled as
association lists (`List (Pos × α)`) with insertion-order append of new
keys, in-place update of existing keys, and explicit deletion — exactly
the operations the source performs.  Python object references stored in
the per-cell occupant lists are modelled by records carrying a numeric
object identity `oid`; Python's identity-based `==` fallback on such
objects corresponds to record equality as long as distinct objects are
given distinct `oid`s, which every concrete state below respects.
Python floats appear only as walk costs compared against `0.0`; they are
modelled as `Rat`.
-/

/-- `interfaces.py, Position`: an integer `(x, y)` pair. -/
structure Pos where
  x : Int
  y : Int
deriving DecidableEq, Repr

/-- `interfaces.py, Position.__gt__`:
`return (self.x*self.y>other.x*other.y) or (self.x>other.x)`. -/
def posGt (p q : Pos) : Bool :=
  decide (p.x * p.y > q.x * q.y) || decide (p.x > q.x)

/-! ## The occupancy index (`maps.py, class Map`) -/

/-- The four map layers, in the order of `Map.__layer_order`
(`[Tile, Item, Monster, Player]`). -/
inductive LayerTag where
  | tileL
  | itemL
  | monsterL
  | playerL
deriving DecidableEq, Repr

/-- A mappable object.  `oid` models Python object identity; `layer` is
the layer `Map.__get_layer_from_obj` computes from the object's class;
`pos` models the mutable `obj.pos` field.  The remaining fields model
the `Traversable` mixin of `interfaces.py`:

* `travers` — whether the object `isinstance(obj, Traversable)`;
* `walk_cost`, `may_block` — the `Traversable` constructor fields;
* `leaveOK` — the result of `try_leaving(obj)` (base class: `True`;
  `Table`/`Crate` return `False` while occupied);
* `tmOverride` — `none` for the base-class `try_movement`
  (`return not self.blocks_movement()`), `some b` for the subclasses
  that override it with a result `b` (`Locker`, `WallPanel`,
  `FloorTeleport` return `False`; `ClankyFloor`, `FloorCharger` return
  `True`).  No `try_movement` implementation in the repository raises. -/
structure MObj where
  oid : Nat
  layer : LayerTag
  pos : Pos
  walk_cost : Rat
  may_block : Bool
  travers : Bool
  leaveOK : Bool
  tmOverride : Option Bool
deriving DecidableEq, Repr

/-- A per-layer cell dictionary: Python `dict` keyed by `Position`,
modelled as an association list in key insertion order. -/
abbrev CellDict := List (Pos × List MObj)

/-- Python `d[p]` / `p in d.keys()`: the value stored at key `p`. -/
def dGet (d : CellDict) (p : Pos) : Option (List MObj) :=
  match d with
  | [] => none
  | (q, v) :: rest => if q = p then some v else dGet rest p

/-- Python `d[p] = v`: update in place if the key exists, else append
the new key (dicts preserve insertion order). -/
def dSet (d : CellDict) (p : Pos) (v : List MObj) : CellDict :=
  match d with
  | [] => [(p, v)]
  | (q, w) :: rest => if q = p then (q, v) :: rest else (q, w) :: dSet rest p v

/-- Python `del d[p]`. -/
def dDel (d : CellDict) (p : Pos) : CellDict :=
  match d with
  | [] => []
  | (q, w) :: rest => if q = p then rest else (q, w) :: dDel rest p

/-- Python `d.setdefault(p, []).append(o)` as used by `Map.add` and
`Map.move`. -/
def dAppend (d : CellDict) (p : Pos) (o : MObj) : CellDict :=
  match dGet d p with
  | some l => dSet d p (l ++ [o])
  | none => d ++ [(p, [o])]

/-- Python `list.remove(o)`: drop the first occurrence. -/
def eraseFirst (l : List MObj) (o : MObj) : List MObj :=
  match l with
  | [] => []
  | a :: rest => if a = o then rest else a :: eraseFirst rest o

/-- The keys of a cell dictionary. -/
def dKeys (d : CellDict) : List Pos :=
  d.map Prod.fst

/-- `maps.py, Map.__init__`: the map state — grid size and the four
layer dictionaries of `self.__layers`. -/
structure MState where
  size : Pos
  tilesD : CellDict
  itemsD : CellDict
  monstersD : CellDict
  playersD : CellDict
deriving DecidableEq, Repr

/-- `self.__layers[layer]`. -/
def layerD (s : MState) (l : LayerTag) : CellDict :=
  match l with
  | .tileL => s.tilesD
  | .itemL => s.itemsD
  | .monsterL => s.monstersD
  | .playerL => s.playersD

/-- Write one layer dictionary back into the state. -/
def setLayerD (s : MState) (l : LayerTag) (d : CellDict) : MState :=
  match l with
  | .tileL => { s with tilesD := d }
  | .itemL => { s with itemsD := d }
  | .monsterL => { s with monstersD := d }
  | .playerL => { s with playersD := d }

/-- `maps.py, Map.find_all_at_pos`: concatenate, over the requested
layers in order, the occupant list stored at `pos` (skipping layers
whose dictionary has no entry for `pos`). -/
def findAllAtPos (s : MState) (p : Pos) (layers : List LayerTag) : List MObj :=
  match layers with
  | [] => []
  | l :: ls => ((dGet (layerD s l) p).getD []) ++ findAllAtPos s p ls

/-- `maps.py, Map.find_at_pos`: first object at `pos` in the first of
the requested layers that has a non-empty occupant list there
(`if pos in self.__layers[l].keys() and len(self.__layers[l][pos])>0`). -/
def findAtPos (s : MState) (p : Pos) (layers : List LayerTag) : Option MObj :=
  match layers with
  | [] => none
  | l :: ls =>
    match dGet (layerD s l) p with
    | some (o :: _) => some o
    | _ => findAtPos s p ls

/-- `interfaces.py, Traversable.blocks_movement`:
`(self.walk_cost == 0.0) and (not is_for_mapping or self.may_block_movement)`. -/
def blocksMovement (o : MObj) (isForMapping : Bool) : Bool :=
  decide (o.walk_cost = 0) && (!isForMapping || o.may_block)

/-- `maps.py, Map.get_walk_cost`: walk cost of the first `Tile`-layer
object at `pos`; `0.0` when there is none (or it is not `Traversable`). -/
def getWalkCost (s : MState) (p : Pos) : Rat :=
  match findAtPos s p [.tileL] with
  | some o => if o.travers then o.walk_cost else 0
  | none => 0

/-- `maps.py, Map.is_blocked`: `blocks_movement()` of the first
`Tile`-layer object at `pos`; `True` when there is none. -/
def isBlocked (s : MState) (p : Pos) : Bool :=
  match findAtPos s p [.tileL] with
  | some o => if o.travers then blocksMovement o false else true
  | none => true

/-- `maps.py, Map.add`: `self.__layers[layer].setdefault(obj.pos, []).append(obj)`
with the layer computed from the object's class. -/
def addM (s : MState) (o : MObj) : MState :=
  setLayerD s o.layer (dAppend (layerD s o.layer) o.pos o)

/-- `maps.py, Map.remove`.  Returns `none` where the Python code dies:
`assert obj.pos in self.__layers[layer].keys()` when the key is absent,
and `list.remove`'s `ValueError` when the object is not in the list.
Otherwise the object is removed and — when the occupant list became
empty — the cell's entry is deleted
(`if len(self.__layers[layer][obj.pos]) == 0: del ...`). -/
def removeM (s : MState) (o : MObj) : Option MState :=
  match dGet (layerD s o.layer) o.pos with
  | none => none
  | some lst =>
    if o ∈ lst then
      let lst2 := eraseFirst lst o
      some (setLayerD s o.layer
        (if lst2 = [] then dDel (layerD s o.layer) o.pos
         else dSet (layerD s o.layer) o.pos lst2))
    else none

/-- The value `Map.move` adds to `r` for one destination tile:
`if isinstance(dest, Traversable): r += dest.try_movement(obj)` where
the base-class `try_movement` is `not self.blocks_movement()` and the
overriding subclasses return a constant (see `MObj.tmOverride`);
Python adds a `bool` as `0.0`/`1.0`. -/
def tmContrib (o : MObj) : Rat :=
  if o.travers then
    (match o.tmOverride with
     | some b => if b then 1 else 0
     | none => if o.walk_cost = 0 then 0 else 1)
  else 0

/-- `maps.py, Map.move`, final line:
`return r > 0.0 and r <= 1.0 and 1.0 - r or r` under Python's truthiness
(`0.0` is falsy, so `r = 1.0` falls through to `r`). -/
def moveReturn (r : Rat) : Rat :=
  if 0 < r ∧ r ≤ 1 then (if 1 - r = 0 then r else 1 - r) else r

/-- Result of `Map.move`: success with the new state and returned
budget, the recoverable `InvalidMoveError`, or an `AssertionError` /
`ValueError` crash (object not tracked where expected). -/
inductive MoveResult where
  | ok (s : MState) (r : Rat)
  | invalidMove
  | assertFail
deriving DecidableEq, Repr

/-- `maps.py, Map.move`, in source order:

1. bounds check — `if pos.x > self.size.x or pos.x < 0 or pos.y > self.size.y
   or pos.y < 0: raise InvalidMoveError` (note the strict `>`);
2. departure check over the `Tile`-layer objects at the source —
   any `Traversable` whose `try_leaving` is false raises;
3. arrival accumulation over the `Tile`-layer objects at `pos` —
   `r += dest.try_movement(obj)` (never raises, see `tmContrib`);
4. `assert obj.pos in self.__layers[layer].keys()`, then
   `self.__layers[layer][obj.pos].remove(obj)` (no empty-entry cleanup)
   and `self.__layers[layer].setdefault(pos, []).append(obj)`;
5. `obj.pos = pos` (modelled by storing the updated record), and the
   truthiness-encoded return value `moveReturn`. -/
def moveM (s : MState) (o : MObj) (p : Pos) : MoveResult :=
  if p.x > s.size.x ∨ p.x < 0 ∨ p.y > s.size.y ∨ p.y < 0 then
    .invalidMove
  else if !((findAllAtPos s o.pos [.tileL]).all fun src => !src.travers || src.leaveOK) then
    .invalidMove
  else
    let r := (findAllAtPos s p [.tileL]).foldl (fun acc d => acc + tmContrib d) 0
    match dGet (layerD s o.layer) o.pos with
    | none => .assertFail
    | some lst =>
      if o ∈ lst then
        .ok (setLayerD s o.layer
              (dAppend (dSet (layerD s o.layer) o.pos (eraseFirst lst o)) p
                { o with pos := p }))
            (moveReturn r)
      else .assertFail

/-- The occupancy invariant of the specification: no layer's dictionary
stores an empty occupant list. -/
def dNoEmpty (d : CellDict) : Bool :=
  d.all fun kv => !kv.2.isEmpty

/-- `dNoEmpty` over all four layers of a map state. -/
def noEmptyEntries (s : MState) : Bool :=
  dNoEmpty s.tilesD && dNoEmpty s.itemsD && dNoEmpty s.monstersD && dNoEmpty s.playersD

/-! ## The pattern matcher (`tiles.py, class MapPattern`) -/

/-- `tiles.py, MapPattern` cell-class flag constants. -/
def pCORRIDOR : Nat := 0x1
def pROOM : Nat := 0x2
def pWALL : Nat := 0x4
def pDOOR : Nat := 0x8
def pSPECIAL : Nat := 0x10
def pANY : Nat := 0xFF

/-- `tiles.py, MapPattern.DATA_MAP` with the `.get(..., EMPTY)` default
for characters not in the table (the `':'` used by one `FloorTeleport`
template maps to `EMPTY`). -/
def dataMap (c : Char) : Nat :=
  if c = ' ' then 0
  else if c = '.' then pCORRIDOR ||| pROOM
  else if c = 'r' then pROOM
  else if c = 'c' then pCORRIDOR
  else if c = '#' then pWALL
  else if c = '+' then pDOOR
  else if c = 'X' then pSPECIAL
  else if c = '?' then pANY
  else 0

/-- The flag of template cell `(ci, ri)`:
`DATA_MAP.get(rows[ci][ri], EMPTY)`. -/
def cellOf (rows : List (List Char)) (ci ri : Nat) : Nat :=
  dataMap ((rows.getD ci []).getD ri ' ')

/-- A `w × h` table of flags. -/
def tab2 (w h : Nat) (f : Nat → Nat → Nat) : List (List Nat) :=
  (List.range w).map fun ci => (List.range h).map fun ri => f ci ri

/-- `tiles.py, MapPattern.__init__`, mask 0 (identity):
`self.masks[0][ci][ri] = x`. -/
def mask0 (rows : List (List Char)) : List (List Nat) :=
  tab2 rows.length (rows.getD 0 []).length fun ci ri => cellOf rows ci ri

/-- `tiles.py, MapPattern.__init__`, mask 1 (90°):
`self.masks[1][w-ri-1][ci] = x`, i.e. entry `(a, b)` holds
`cellOf rows b (w-1-a)`.  The assignment pattern is total exactly for
square templates (`w = h`), which all templates in the repository are;
the formula below is its solved form for that case. -/
def mask1 (rows : List (List Char)) : List (List Nat) :=
  tab2 rows.length (rows.getD 0 []).length fun a b => cellOf rows b (rows.length - 1 - a)

/-- `tiles.py, MapPattern.__init__`, mask 2 (180°):
`self.masks[2][w-ci-1][h-ri-1] = x`, solved form for square templates. -/
def mask2 (rows : List (List Char)) : List (List Nat) :=
  tab2 rows.length (rows.getD 0 []).length fun a b =>
    cellOf rows (rows.length - 1 - a) ((rows.getD 0 []).length - 1 - b)

/-- `tiles.py, MapPattern.__init__`, mask 3 (270°):
`self.masks[3][ri][h-ci-1] = x`, solved form for square templates. -/
def mask3 (rows : List (List Char)) : List (List Nat) :=
  tab2 rows.length (rows.getD 0 []).length fun a b =>
    cellOf rows ((rows.getD 0 []).length - 1 - b) a

/-- `tiles.py, MapPattern.__init__`, the symmetry pruning:
`symmetry_4` compares mask 0 and mask 1 pointwise over the template
extent and `symmetry_2` compares mask 0 and mask 2; then
`if symmetry_4: del self.masks[1:3]` (keeping masks 0 **and 3**)
`elif symmetry_2: del self.masks[2:3]` (keeping masks 0, 1 and 3). -/
def patternMasks (rows : List (List Char)) : List (List (List Nat)) :=
  if mask0 rows = mask1 rows then [mask0 rows, mask3 rows]
  else if mask0 rows = mask2 rows then [mask0 rows, mask1 rows, mask3 rows]
  else [mask0 rows, mask1 rows, mask2 rows, mask3 rows]

/-- One cell test of `tiles.py, MapPattern.apply_to`: with `a` the map
flag and `b` the mask flag, the cell is acceptable when
`(a & b) != 0  or  (a == 0 and b & WALL != 0)` — the special rule that a
fully-empty grid cell matches a `WALL` mask cell. -/
def cellMatches (a b : Nat) : Bool :=
  decide (0 < (a &&& b)) || (decide (a = 0) && decide (0 < (b &&& pWALL)))

/-- `tiles.py, MapPattern.apply_to`, inner mask test at anchor
`(mci, mri)`: all template cells `(kci, kri) ∈ [-kw2, kw2] × [-kh2, kh2]`
must match (`dci = kci + kw2`, `dri = kri + kh2` below). -/
def maskOKAt (M : List (List Nat)) (mask : List (List Nat)) (kw2 kh2 mci mri : Nat) : Bool :=
  (List.range (2 * kw2 + 1)).all fun dci =>
    (List.range (2 * kh2 + 1)).all fun dri =>
      cellMatches ((M.getD (mci - kw2 + dci) []).getD (mri - kh2 + dri) 0)
        ((mask.getD dci []).getD dri 0)

/-- `tiles.py, MapPattern.apply_to`: for every anchor
`mci ∈ [kw2, len(map)-kw2)`, `mri ∈ [kh2, len(map[mci])-kh2)` and every
stored mask (in order), append `Position(mci, mri)` when the mask
matches — one appended copy **per matching mask**, there is no
de-duplication across masks. -/
def applyTo (masks : List (List (List Nat))) (M : List (List Nat)) : List Pos :=
  let kw2 := (masks.getD 0 []).length / 2
  let kh2 := ((masks.getD 0 []).getD 0 []).length / 2
  ((List.range' kw2 (M.length - 2 * kw2)).map fun mci =>
    ((List.range' kh2 ((M.getD mci []).length - 2 * kh2)).map fun mri =>
      (masks.filter fun mask => maskOKAt M mask kw2 kh2 mci mri).map
        fun _ => (⟨(mci : Int), (mri : Int)⟩ : Pos)).flatten).flatten

/-! ## Pattern de-duplication in `tiles.py, Tile.get_all_tiles` -/

/-- A `MapPattern` object: `pid` models Python object identity, `rows`
the template content.  `MapPattern.__hash__` hashes the concatenated
row content; `MapPattern` defines **no** `__eq__`, so `==` on patterns
is Python's default object identity. -/
structure PatternObj where
  pid : Nat
  rows : List (List Char)
deriving DecidableEq, Repr

/-- Key matching for a Python `dict` keyed by `MapPattern` objects:
the probe matches a stored key when their hashes agree (content hash)
**and** they compare equal — which, absent `__eq__`, is identity. -/
def patKeyEqPy (p q : PatternObj) : Bool :=
  (p.rows = q.rows) && (p.pid = q.pid)

/-- Key matching as the specification describes it (`"assumed identical
by content hash (not identity)"`): content equality alone.  Stated from
the spec's words for comparison with `patKeyEqPy`. -/
def patKeyEqSpec (p q : PatternObj) : Bool :=
  p.rows = q.rows

/-- A feature tile class with its `patterns` list
(e.g. `Locker`, `WallPanel` in `tiles.py`). -/
structure FeatureT where
  fname : List Char
  patterns : List PatternObj
deriving DecidableEq, Repr

/-- One step of building `pattern_map` in `tiles.py, Tile.get_all_tiles`:
`if not p in pattern_map.keys(): pattern_map[p] = []` followed by
`pattern_map[p].append(T)`, with dict key matching given by `keq`. -/
def pmAdd (keq : PatternObj → PatternObj → Bool) (pm : List (PatternObj × List FeatureT))
    (p : PatternObj) (T : FeatureT) : List (PatternObj × List FeatureT) :=
  if pm.any fun kv => keq kv.1 p then
    pm.map fun kv => if keq kv.1 p then (kv.1, kv.2 ++ [T]) else kv
  else
    pm ++ [(p, [T])]

/-- `tiles.py, Tile.get_all_tiles`, the `pattern_map` loop:
`for T in types: for p in T.patterns: ...`.  Each entry of the result is
applied to the map array exactly once afterwards
(`for (p,T_list) in pattern_map.items(): p_list = p.apply_to(map_array)`),
so the number of entries is the number of `apply_to` invocations. -/
def buildPatternMap (keq : PatternObj → PatternObj → Bool) (types : List FeatureT) :
    List (PatternObj × List FeatureT) :=
  types.foldl (fun pm T => T.patterns.foldl (fun pm2 p => pmAdd keq pm2 p T) pm) []

/-! ## The door-resolution pass (`maps.py, TypeAMap.generate`) -/

/-- Both given neighbour flags are walkable:
`n & (CORRIDOR | ROOM | SPECIAL) > 0` for each. -/
def walkBoth (a b : Nat) : Bool :=
  decide (0 < (a &&& (pCORRIDOR ||| pROOM ||| pSPECIAL))) &&
  decide (0 < (b &&& (pCORRIDOR ||| pROOM ||| pSPECIAL)))

/-- Both given neighbour flags are wall, door, or fully empty:
`(n & (WALL | DOOR) > 0 or n == 0)` for each. -/
def wallishBoth (a b : Nat) : Bool :=
  (decide (0 < (a &&& (pWALL ||| pDOOR))) || decide (a = 0)) &&
  (decide (0 < (b &&& (pWALL ||| pDOOR))) || decide (b = 0))

/-- What a `DOOR`-flagged cell materialises as. -/
inductive DoorCell where
  | door
  | wall
  | floor
deriving DecidableEq, Repr

/-- The axis-mark and dispatch logic of the door-resolution pass,
abstracted over the four neighbour tests.  Mirrors the source exactly:
the walkable test sets the mark to `1`, then the wall/door/empty test
**overwrites** it with `-1` when it also holds (two separate `if`
statements, not `elif`); a door needs one axis positive and the other
negative, a wall needs both non-positive, anything else is a floor
(`self.add(Floor(...))` + `self.add(Door(...))` in the door case). -/
def doorMarksCore (iNS iEW wNS bNS wEW bEW : Bool) : DoorCell :=
  let mNS : Int := if iNS then (if bNS then -1 else if wNS then 1 else 0) else 0
  let mEW : Int := if iEW then (if bEW then -1 else if wEW then 1 else 0) else 0
  if (mNS > 0 ∧ mEW < 0) ∨ (mNS < 0 ∧ mEW > 0) then .door
  else if mNS ≤ 0 ∧ mEW ≤ 0 then .wall
  else .floor

/-- `maps.py, TypeAMap.generate`, lines 1229–1258: resolution of one
`DOOR`-flagged cell from its four orthogonal neighbour flags `n`, `s`
(used when `0 < y < size.y - 1`, i.e. `iNS`) and `e`, `w` (used when
`0 < x < size.x - 1`, i.e. `iEW`). -/
def doorResolve (iNS iEW : Bool) (n s e w : Nat) : DoorCell :=
  doorMarksCore iNS iEW (walkBoth n s) (wallishBoth n s) (walkBoth e w) (wallishBoth e w)

/-- The door-resolution rule as the claim states it: a door iff exactly
one axis has both neighbours walkable and the other axis has both
neighbours wall/door/empty; a wall when neither axis has both
neighbours walkable; a floor otherwise.  Stated from the claim's words
for comparison with `doorResolve`. -/
def doorClaimCell (iNS iEW : Bool) (n s e w : Nat) : DoorCell :=
  let wNS := iNS && walkBoth n s
  let wEW := iEW && walkBoth e w
  let bNS := iNS && wallishBoth n s
  let bEW := iEW && wallishBoth e w
  if (wNS && !wEW && bEW) || (wEW && !wNS && bNS) then .door
  else if !wNS && !wEW then .wall
  else .floor

/-! ## Restart-on-rejection control flow of `TypeAMap.generate` -/

/-- `maps.py, TypeAMap.SANITY_LIMIT`. -/
def SANITY_LIMIT : Nat := 100

/-- Outcome of running the `generate` restart skeleton for a bounded
number of attempts. -/
inductive GenResult where
  | completed
  | errored
  | runningOut
deriving DecidableEq, Repr

/-- `maps.py, TypeAMap.generate`, restart control flow.  A rejected
attempt (corridor-coverage check, line 1188, or miss-fraction check,
line 1297) ends in a bare `return self.generate()`; the method carries
no attempt counter and has no raise on this path, so the skeleton never
produces `.errored` — that constructor exists only so the claimed
"hard generation-failure error past the sanity ceiling" is expressible.
`reject k` abstracts the RNG-driven rejection of the `k`-th attempt;
`fuel` bounds how many attempts we unfold. -/
def generateRestart (reject : Nat → Bool) : Nat → Nat → GenResult
  | 0, _ => .runningOut
  | fuel + 1, attempt =>
    if reject attempt then generateRestart reject fuel (attempt + 1) else .completed

/-! ## Concrete scenario states

Each state below is built from an empty map by the embedded operations
themselves, so it is reachable in the sense of the claims.  Distinct
objects carry distinct `oid`s (Python object identity). -/

/-- A fresh 5×5 map with all four layers empty. -/
def emptyMap5 : MState := ⟨⟨5, 5⟩, [], [], [], []⟩

/-- A `Floor` tile at (1,1): walk cost 1.0, base-class `try_movement`. -/
def c1FloorA : MObj := ⟨1, .tileL, ⟨1, 1⟩, 1, false, true, true, none⟩

/-- A `Floor` tile at (2,1). -/
def c1FloorB : MObj := ⟨2, .tileL, ⟨2, 1⟩, 1, false, true, true, none⟩

/-- A monster at (1,1), the sole occupant of its cell in the
`Monster` layer. -/
def c1Mon : MObj := ⟨3, .monsterL, ⟨1, 1⟩, 0, false, false, true, none⟩

/-- Floors at (1,1) and (2,1) plus a monster at (1,1). -/
def c1Start : MState := addM (addM (addM emptyMap5 c1FloorA) c1FloorB) c1Mon

/-- A `Floor` tile at (1,1). -/
def c2Floor : MObj := ⟨1, .tileL, ⟨1, 1⟩, 1, false, true, true, none⟩

/-- A `Wall` tile at (2,1): walk cost 0.0 (impassable), base-class
`try_movement` (`tiles.py, class Wall` overrides nothing). -/
def c2Wall : MObj := ⟨2, .tileL, ⟨2, 1⟩, 0, false, true, true, none⟩

/-- A monster at (1,1). -/
def c2Mon : MObj := ⟨3, .monsterL, ⟨1, 1⟩, 0, false, false, true, none⟩

/-- Floor at (1,1), wall at (2,1), monster at (1,1). -/
def c2Start : MState := addM (addM (addM emptyMap5 c2Floor) c2Wall) c2Mon

/-- A monster at (1,1) on an otherwise empty 5×5 map. -/
def c6Mon : MObj := ⟨1, .monsterL, ⟨1, 1⟩, 0, false, false, true, none⟩

/-- Map for the bounds-check scenario. -/
def c6Start : MState := addM emptyMap5 c6Mon

/-- The object `O` of the add/remove round-trip, a monster at (1,1). -/
def c9O : MObj := ⟨1, .monsterL, ⟨1, 1⟩, 0, false, false, true, none⟩

/-- A second monster sharing cell (1,1), added after `O`. -/
def c9A : MObj := ⟨2, .monsterL, ⟨1, 1⟩, 0, false, false, true, none⟩

/-- Monster layer at (1,1) holds `[c9O, c9A]` — `O` is already on the
map when `add(O)` is called again. -/
def c9Start : MState := addM (addM emptyMap5 c9O) c9A

/-- The 3×3 all-`'r'` template of `tiles.py, Table.patterns` (also used
by `Crate`): identical under every 90° rotation. -/
def rowsRRR : List (List Char) := [['r', 'r', 'r'], ['r', 'r', 'r'], ['r', 'r', 'r']]

/-- A 3×3 map array whose every cell carries the `ROOM` flag. -/
def gridRoom3 : List (List Nat) := [[2, 2, 2], [2, 2, 2], [2, 2, 2]]

/-- The 3×3 template content shared by `Locker.patterns` and
`WallPanel.patterns` in `tiles.py`: `("...", "###", "###")`. -/
def lockerRows : List (List Char) :=
  [['.', '.', '.'], ['#', '#', '#'], ['#', '#', '#']]

/-- The `MapPattern` object constructed in `Locker.patterns`. -/
def lockerPat : PatternObj := ⟨0, lockerRows⟩

/-- The `MapPattern` object constructed in `WallPanel.patterns`:
identical cell content, distinct Python object. -/
def panelPat : PatternObj := ⟨1, lockerRows⟩

/-- The `Locker` feature type. -/
def lockerT : FeatureT := ⟨['L', 'o', 'c', 'k', 'e', 'r'], [lockerPat]⟩

/-- The `WallPanel` feature type. -/
def wallPanelT : FeatureT := ⟨['W', 'a', 'l', 'l', 'P', 'a', 'n', 'e', 'l'], [panelPat]⟩

/-- A traversable tile (walk cost 1) at (1,1). -/
def c10Tile : MObj := ⟨1, .tileL, ⟨1, 1⟩, 1, false, true, true, none⟩

/-- A second, impassable tile later stacked on the same cell. -/
def c10Tile2 : MObj := ⟨2, .tileL, ⟨1, 1⟩, 0, false, true, true, none⟩

/-- Map with the single tile `c10Tile`. -/
def c10Start : MState := addM emptyMap5 c10Tile

/-! ## Association-list lemmas for the dictionary model -/

theorem dGet_dSet_self (d : CellDict) (p : Pos) (v : List MObj) :
    dGet (dSet d p v) p = some v := by
  induction d with
  | nil => simp [dSet, dGet]
  | cons kv rest ih =>
    obtain ⟨q, w⟩ := kv
    by_cases h : q = p
    · simp [dSet, h, dGet]
    · simp [dSet, h, dGet, ih]

theorem dGet_append_of_none {d : CellDict} {p : Pos} (e : CellDict)
    (h : dGet d p = none) : dGet (d ++ e) p = dGet e p := by
  induction d with
  | nil => simp
  | cons kv rest ih =>
    obtain ⟨q, w⟩ := kv
    by_cases hq : q = p
    · simp [dGet, hq] at h
    · simp [dGet, hq] at h ⊢
      exact ih h

theorem dGet_dAppend_self (d : CellDict) (p : Pos) (o : MObj) :
    dGet (dAppend d p o) p = some ((dGet d p).getD [] ++ [o]) := by
  unfold dAppend
  cases h : dGet d p with
  | some l => simp [dGet_dSet_self]
  | none => simp [dGet_append_of_none _ h, dGet]

theorem eraseFirst_append_not_mem {l : List MObj} {o : MObj} (h : o ∉ l) :
    eraseFirst (l ++ [o]) o = l := by
  induction l with
  | nil => simp [eraseFirst]
  | cons a rest ih =>
    simp only [List.mem_cons, not_or] at h
    simp only [List.cons_append, eraseFirst]
    rw [if_neg (fun hao => h.1 hao.symm)]
    show a :: eraseFirst (rest ++ [o]) o = a :: rest
    rw [ih h.2]

theorem dDel_append_of_none {d : CellDict} {p : Pos} (v : List MObj)
    (h : dGet d p = none) : dDel (d ++ [(p, v)]) p = d := by
  induction d with
  | nil => simp [dDel]
  | cons kv rest ih =>
    obtain ⟨q, w⟩ := kv
    by_cases hq : q = p
    · simp [dGet, hq] at h
    · simp [dGet, hq] at h
      simp [dDel, hq, ih h]

theorem dKeys_dSet_of_mem {d : CellDict} {p : Pos} {l : List MObj} (v : List MObj)
    (h : dGet d p = some l) : dKeys (dSet d p v) = dKeys d := by
  induction d with
  | nil => simp [dGet] at h
  | cons kv rest ih =>
    obtain ⟨q, w⟩ := kv
    by_cases hq : q = p
    · simp [dSet, hq, dKeys]
    · simp [dGet, hq] at h
      simp [dSet, hq, dKeys] at ih ⊢
      exact ih h

theorem dGet_of_not_mem_keys {d : CellDict} {p : Pos} (h : p ∉ dKeys d) :
    dGet d p = none := by
  induction d with
  | nil => simp [dGet]
  | cons kv rest ih =>
    obtain ⟨q, w⟩ := kv
    simp only [dKeys, List.map_cons, List.mem_cons, not_or] at h
    simp only [dGet]
    rw [if_neg (fun hq => h.1 hq.symm)]
    exact ih (by simpa [dKeys] using h.2)

theorem dGet_dDel_self_of_nodup {d : CellDict} {p : Pos}
    (h : (dKeys d).Nodup) : dGet (dDel d p) p = none := by
  induction d with
  | nil => simp [dDel, dGet]
  | cons kv rest ih =>
    obtain ⟨q, w⟩ := kv
    simp only [dKeys, List.map_cons, List.nodup_cons] at h
    by_cases hq : q = p
    · subst hq
      simp only [dDel, if_pos rfl]
      exact dGet_of_not_mem_keys (by simpa [dKeys] using h.1)
    · simp only [dDel, if_neg hq, dGet, if_neg hq]
      exact ih h.2

theorem dNoEmpty_iff {d : CellDict} : dNoEmpty d = true ↔ ∀ kv ∈ d, kv.2 ≠ [] := by
  simp [dNoEmpty, List.all_eq_true, List.isEmpty_iff]

theorem mem_dSet {d : CellDict} {p : Pos} {v : List MObj} {kv : Pos × List MObj}
    (h : kv ∈ dSet d p v) : kv.2 = v ∨ kv ∈ d := by
  induction d with
  | nil => simp [dSet] at h; simp [h]
  | cons kw rest ih =>
    obtain ⟨q, w⟩ := kw
    by_cases hq : q = p
    · simp only [dSet, if_pos hq, List.mem_cons] at h
      rcases h with h | h
      · exact Or.inl (by simp [h])
      · exact Or.inr (List.mem_cons_of_mem _ h)
    · simp only [dSet, if_neg hq, List.mem_cons] at h
      rcases h with h | h
      · exact Or.inr (by simp [h])
      · rcases ih h with h2 | h2
        · exact Or.inl h2
        · exact Or.inr (List.mem_cons_of_mem _ h2)

theorem mem_dDel {d : CellDict} {p : Pos} {kv : Pos × List MObj}
    (h : kv ∈ dDel d p) : kv ∈ d := by
  induction d with
  | nil => simp [dDel] at h
  | cons kw rest ih =>
    obtain ⟨q, w⟩ := kw
    by_cases hq : q = p
    · simp only [dDel, if_pos hq] at h
      exact List.mem_cons_of_mem _ h
    · simp only [dDel, if_neg hq, List.mem_cons] at h
      rcases h with h | h
      · exact (by simp [h])
      · exact List.mem_cons_of_mem _ (ih h)

theorem dNoEmpty_dSet {d : CellDict} {p : Pos} {v : List MObj}
    (hd : dNoEmpty d = true) (hv : v ≠ []) : dNoEmpty (dSet d p v) = true := by
  rw [dNoEmpty_iff] at hd ⊢
  intro kv hkv
  rcases mem_dSet hkv with h | h
  · rw [h]; exact hv
  · exact hd kv h

theorem dNoEmpty_dDel {d : CellDict} {p : Pos}
    (hd : dNoEmpty d = true) : dNoEmpty (dDel d p) = true := by
  rw [dNoEmpty_iff] at hd ⊢
  intro kv hkv
  exact hd kv (mem_dDel hkv)

theorem dNoEmpty_dAppend {d : CellDict} {p : Pos} {o : MObj}
    (hd : dNoEmpty d = true) : dNoEmpty (dAppend d p o) = true := by
  unfold dAppend
  cases h : dGet d p with
  | some l => exact dNoEmpty_dSet hd (by simp)
  | none =>
    rw [dNoEmpty_iff] at hd ⊢
    intro kv hkv
    rcases List.mem_append.mp hkv with h2 | h2
    · exact hd kv h2
    · simp only [List.mem_singleton] at h2
      simp [h2]

theorem layerD_setLayerD_self (s : MState) (t : LayerTag) (d : CellDict) :
    layerD (setLayerD s t d) t = d := by
  cases t <;> rfl

theorem layerD_setLayerD_other {t t2 : LayerTag} (s : MState) (d : CellDict)
    (h : t2 ≠ t) : layerD (setLayerD s t d) t2 = layerD s t2 := by
  cases t <;> cases t2 <;> simp_all [setLayerD, layerD]

theorem noEmptyEntries_iff {s : MState} :
    noEmptyEntries s = true ↔ ∀ t, dNoEmpty (layerD s t) = true := by
  simp only [noEmptyEntries, Bool.and_eq_true]
  constructor
  · rintro ⟨⟨⟨h1, h2⟩, h3⟩, h4⟩ t
    cases t <;> simpa [layerD]
  · intro h
    exact ⟨⟨⟨h .tileL, h .itemL⟩, h .monsterL⟩, h .playerL⟩

theorem findAllAtPos_single (s : MState) (p : Pos) (t : LayerTag) :
    findAllAtPos s p [t] = (dGet (layerD s t) p).getD [] := by
  simp [findAllAtPos]

/-! ## Claim C3 — termination of level generation -/

/-- Counterexample to claim C3.  The whole-generation restart of
`TypeAMap.generate` (`return self.generate()` on either coverage
rejection) carries no attempt counter: with every attempt rejected, the
skeleton is still recursing after `SANITY_LIMIT + 1 = 101` attempts and
has raised no generation-failure error, contradicting "bounded by an
explicit attempt counter" and "exceeding the sanity ceiling raises a
hard generation-failure error". -/
theorem c3_counterexample :
    generateRestart (fun _ => true) (SANITY_LIMIT + 1) 0 = GenResult.runningOut ∧
    generateRestart (fun _ => true) (SANITY_LIMIT + 1) 0 ≠ GenResult.errored := by
  decide

/-- Claim C3, amended: the whole-generation restart taken when a
coverage check fails is an **unbounded** recursive self-call with no
attempt counter — for a rejection oracle that rejects every attempt,
no amount of unfolding ever completes or raises a generation-failure
error (the `SANITY_LIMIT` counters in the source guard only loops
inside a single attempt, not the restart). -/
theorem c3_theorem :
    ∀ (fuel attempt : Nat),
      generateRestart (fun _ => true) fuel attempt = GenResult.runningOut := by
  intro fuel
  induction fuel with
  | zero => intro attempt; rfl
  | succ n ih =>
    intro attempt
    simp only [generateRestart, if_pos]
    exact ih (attempt + 1)

/-! ## Claim C4 — rotational de-duplication of a symmetric template -/

/-- Claim C4 (code bug).  For the 4-fold rotationally symmetric
template `("rrr","rrr","rrr")` (the `Table`/`Crate` pattern), the
constructor's `del self.masks[1:3]` keeps masks 0 **and 3** — two
(identical) stored variants, not one — and `apply_to` on a 3×3
all-`ROOM` array therefore reports the single matching anchor (1,1)
twice, whereas a single stored variant would report it once.  This
contradicts the claimed "exactly one stored variant" with unchanged
`apply` results, and the code's own intent comment
(`# remove duplicate masks due to rotational symmetry`). -/
theorem c4_theorem :
    mask0 rowsRRR = mask1 rowsRRR ∧ mask0 rowsRRR = mask3 rowsRRR ∧
    (patternMasks rowsRRR).length = 2 ∧
    applyTo (patternMasks rowsRRR) gridRoom3 = [⟨1, 1⟩, ⟨1, 1⟩] ∧
    applyTo [mask0 rowsRRR] gridRoom3 = [⟨1, 1⟩] := by
  decide

/-! ## Claim C5 — content-hash identification of equal templates -/

/-- Claim C5 (code bug).  `Locker.patterns` and `WallPanel.patterns`
contain `MapPattern` objects with identical cell content; because
`MapPattern` defines `__hash__` but no `__eq__`, the `pattern_map`
dictionary of `Tile.get_all_tiles` matches keys by object identity, so
the two content-equal templates become **two** entries (the pattern is
applied to the map array twice, lists are not shared), while the dict
keyed as the specification describes (content only) would hold one. -/
theorem c5_theorem :
    lockerPat.rows = panelPat.rows ∧ lockerPat ≠ panelPat ∧
    (buildPatternMap patKeyEqPy [lockerT, wallPanelT]).length = 2 ∧
    (buildPatternMap patKeyEqSpec [lockerT, wallPanelT]).length = 1 := by
  decide

/-! ## Claim C6 — bounds checking in `Map.move` -/

/-- Claim C6 (code bug).  `Map.move`'s bounds check uses strict `>`
against `self.size`, so the out-of-extent destination `(5, 2)` on a
5×5 grid (valid cells are `0..4`) is **not** rejected: the move
proceeds and relocates the monster to x = size.x instead of raising
`InvalidMoveError`. -/
theorem c6_theorem :
    c6Start.size.x = 5 ∧
    ∃ s2 r, moveM c6Start c6Mon ⟨5, 2⟩ = MoveResult.ok s2 r := by
  exact ⟨by decide, _, _, rfl⟩

/-! ## Claim C7 — the door-resolution rule -/

/-- Counterexample to claim C7.  Take an interior `DOOR`-flagged cell
whose N/S neighbours carry `CORRIDOR|WALL` (= 5) and whose E/W
neighbours carry `WALL` (= 4).  The N/S axis has both neighbours
walkable and the E/W axis has both neighbours wall-ish, so the claim's
rule materialises a door (`doorClaimCell`); but in the source the
wall/door/empty test **overwrites** the walkable mark
(`m_ns` ends `-1`), and the cell becomes a plain wall. -/
theorem c7_counterexample :
    walkBoth 5 5 = true ∧ walkBoth 4 4 = false ∧ wallishBoth 4 4 = true ∧
    doorClaimCell true true 5 5 4 4 = DoorCell.door ∧
    doorResolve true true 5 5 4 4 = DoorCell.wall := by
  decide

/-- Claim C7, amended: a `DOOR`-flagged cell materialises as a door iff
both axes are interior and exactly one axis has both neighbours
walkable **and not both wall/door/empty**, while the other axis has
both neighbours wall/door/empty; it becomes a wall iff it is not a door
and neither axis has the (walkable and not wall-ish) mark; otherwise it
becomes a floor. -/
theorem c7_theorem :
    ∀ (iNS iEW : Bool) (n s e w : Nat),
      (doorResolve iNS iEW n s e w = DoorCell.door ↔
        (iNS = true ∧ iEW = true ∧
          ((walkBoth n s = true ∧ wallishBoth n s = false ∧ wallishBoth e w = true) ∨
           (walkBoth e w = true ∧ wallishBoth e w = false ∧ wallishBoth n s = true)))) ∧
      (doorResolve iNS iEW n s e w = DoorCell.wall ↔
        (¬(iNS = true ∧ iEW = true ∧
            ((walkBoth n s = true ∧ wallishBoth n s = false ∧ wallishBoth e w = true) ∨
             (walkBoth e w = true ∧ wallishBoth e w = false ∧ wallishBoth n s = true))) ∧
         ¬(iNS = true ∧ walkBoth n s = true ∧ wallishBoth n s = false) ∧
         ¬(iEW = true ∧ walkBoth e w = true ∧ wallishBoth e w = false))) := by
  intro iNS iEW n s e w
  have core : ∀ (i1 i2 w1 b1 w2 b2 : Bool),
      (doorMarksCore i1 i2 w1 b1 w2 b2 = DoorCell.door ↔
        (i1 = true ∧ i2 = true ∧
          ((w1 = true ∧ b1 = false ∧ b2 = true) ∨ (w2 = true ∧ b2 = false ∧ b1 = true)))) ∧
      (doorMarksCore i1 i2 w1 b1 w2 b2 = DoorCell.wall ↔
        (¬(i1 = true ∧ i2 = true ∧
            ((w1 = true ∧ b1 = false ∧ b2 = true) ∨ (w2 = true ∧ b2 = false ∧ b1 = true))) ∧
         ¬(i1 = true ∧ w1 = true ∧ b1 = false) ∧
         ¬(i2 = true ∧ w2 = true ∧ b2 = false))) := by
    intro i1 i2 w1 b1 w2 b2
    cases i1 <;> cases i2 <;> cases w1 <;> cases b1 <;> cases w2 <;> cases b2 <;> decide
  exact core iNS iEW (walkBoth n s) (wallishBoth n s) (walkBoth e w) (wallishBoth e w)

/-! ## Claim C8 — the `Position` ordering -/

/-- Counterexample to claim C8.  `Position.__gt__` is a disjunction
(`product greater or x greater`), not a lexicographic comparison:
`(3,1)` and `(2,3)` are unequal yet each is greater than the other, so
"exactly one of p > q and q > p" fails. -/
theorem c8_counterexample :
    posGt ⟨3, 1⟩ ⟨2, 3⟩ = true ∧ posGt ⟨2, 3⟩ ⟨3, 1⟩ = true ∧
    (⟨3, 1⟩ : Pos) ≠ ⟨2, 3⟩ := by
  decide

/-- Claim C8, amended: the comparison holds when the coordinate product
is strictly larger **or** the x coordinate is strictly larger.  It is
irreflexive, but it is not a strict total order: there are unequal
mutually-greater pairs (`(3,1)`, `(2,3)`), unequal incomparable pairs
(`(0,1)`, `(0,2)`), and transitivity fails
(`(1,10) > (6,1) > (5,5)` yet `(1,10) ≯ (5,5)`). -/
theorem c8_theorem :
    (∀ p : Pos, posGt p p = false) ∧
    (posGt ⟨3, 1⟩ ⟨2, 3⟩ = true ∧ posGt ⟨2, 3⟩ ⟨3, 1⟩ = true) ∧
    (posGt ⟨0, 1⟩ ⟨0, 2⟩ = false ∧ posGt ⟨0, 2⟩ ⟨0, 1⟩ = false) ∧
    (posGt ⟨1, 10⟩ ⟨6, 1⟩ = true ∧ posGt ⟨6, 1⟩ ⟨5, 5⟩ = true ∧
      posGt ⟨1, 10⟩ ⟨5, 5⟩ = false) := by
  refine ⟨?_, by decide, by decide, by decide⟩
  intro p
  simp [posGt]

/-! ## Claim C10 — `get_walk_cost` / `is_blocked` semantics -/

/-- Claim C10, confirmed: `get_walk_cost` and `is_blocked` consult only
the first-inserted `Tile`-layer object at the queried position (list
head), a co-located tile added later leaves both results unchanged, and
a position with no `Tile`-layer object yields walk cost `0.0` and
blocked `True`. -/
theorem c10_theorem :
    (∀ (s : MState) (p : Pos) (o : MObj) (rest : List MObj),
        dGet s.tilesD p = some (o :: rest) →
        getWalkCost s p = (if o.travers then o.walk_cost else 0) ∧
        isBlocked s p = (if o.travers then blocksMovement o false else true)) ∧
    (∀ (s : MState) (t : MObj), t.layer = LayerTag.tileL →
        (dGet s.tilesD t.pos).getD [] ≠ [] →
        getWalkCost (addM s t) t.pos = getWalkCost s t.pos ∧
        isBlocked (addM s t) t.pos = isBlocked s t.pos) ∧
    (∀ (s : MState) (p : Pos), (dGet s.tilesD p).getD [] = [] →
        getWalkCost s p = 0 ∧ isBlocked s p = true) := by
  refine ⟨?_, ?_, ?_⟩
  · intro s p o rest h
    constructor
    · simp [getWalkCost, findAtPos, layerD, h]
    · simp [isBlocked, findAtPos, layerD, h]
  · intro s t ht hne
    have hadd : (addM s t).tilesD = dAppend s.tilesD t.pos t := by
      simp [addM, ht, layerD, setLayerD]
    cases hg : dGet s.tilesD t.pos with
    | none => rw [hg] at hne; simp at hne
    | some l =>
      rw [hg] at hne
      simp only [Option.getD_some] at hne
      cases l with
      | nil => exact absurd rfl hne
      | cons o rest =>
        have h2 : dGet (addM s t).tilesD t.pos = some (o :: (rest ++ [t])) := by
          rw [hadd, dGet_dAppend_self, hg]
          simp
        constructor
        · simp [getWalkCost, findAtPos, layerD, h2, hg]
        · simp [isBlocked, findAtPos, layerD, h2, hg]
  · intro s p h
    cases hg : dGet s.tilesD p with
    | none =>
      constructor
      · simp [getWalkCost, findAtPos, layerD, hg]
      · simp [isBlocked, findAtPos, layerD, hg]
    | some l =>
      rw [hg] at h
      simp only [Option.getD_some] at h
      subst h
      constructor
      · simp [getWalkCost, findAtPos, layerD, hg]
      · simp [isBlocked, findAtPos, layerD, hg]

/-- Witness for claim C10 at concrete inputs: the map `c10Start` has
the single tile `c10Tile` (walk cost 1) at (1,1); stacking the
impassable `c10Tile2` on top changes neither query; the empty map is
impassable everywhere. -/
theorem c10_witness :
    getWalkCost c10Start ⟨1, 1⟩ = 1 ∧
    getWalkCost (addM c10Start c10Tile2) ⟨1, 1⟩ = getWalkCost c10Start ⟨1, 1⟩ ∧
    isBlocked (addM c10Start c10Tile2) ⟨1, 1⟩ = isBlocked c10Start ⟨1, 1⟩ ∧
    getWalkCost emptyMap5 ⟨2, 2⟩ = 0 ∧ isBlocked emptyMap5 ⟨2, 2⟩ = true := by
  obtain ⟨p1, p2, p3⟩ := c10_theorem
  refine ⟨?_, ?_, ?_, ?_, ?_⟩
  · rw [(p1 c10Start ⟨1, 1⟩ c10Tile [] (by decide)).1]
    decide
  · exact (p2 c10Start c10Tile2 rfl (by decide)).1
  · exact (p2 c10Start c10Tile2 rfl (by decide)).2
  · exact (p3 emptyMap5 ⟨2, 2⟩ (by decide)).1
  · exact (p3 emptyMap5 ⟨2, 2⟩ (by decide)).2

/-! ## Claim C1 — no empty occupant lists -/

/-- Counterexample to claim C1.  `c1Start` is reachable from the empty
map by three `add`s; moving its monster — the sole occupant of cell
(1,1) in the `Monster` layer — to (2,1) succeeds, yet the resulting
state keeps an entry for (1,1) with an **empty** occupant list, because
`Map.move` (unlike `Map.remove`) never deletes the vacated entry. -/
theorem c1_counterexample :
    (match moveM c1Start c1Mon ⟨2, 1⟩ with
     | .ok s2 _ => noEmptyEntries s2
     | _ => true) = false ∧
    (match moveM c1Start c1Mon ⟨2, 1⟩ with
     | .ok s2 _ => dGet s2.monstersD ⟨1, 1⟩
     | _ => none) = some [] := by
  decide

/-- Claim C1, amended: `add` and `remove` do preserve the no-empty-entry
invariant (`remove` deletes the vacated cell's entry immediately), but
`move` does not — moving the last occupant out of a cell leaves that
cell's entry present with an empty occupant sequence. -/
theorem c1_theorem (s : MState) (o : MObj) (h : noEmptyEntries s = true) :
    noEmptyEntries (addM s o) = true ∧
    ∀ s2, removeM s o = some s2 → noEmptyEntries s2 = true := by
  constructor
  · rw [noEmptyEntries_iff] at h ⊢
    intro t
    unfold addM
    rcases eq_or_ne t o.layer with rfl | ht
    · rw [layerD_setLayerD_self]
      exact dNoEmpty_dAppend (h _)
    · rw [layerD_setLayerD_other _ _ ht]
      exact h t
  · intro s2 hs2
    cases hg : dGet (layerD s o.layer) o.pos with
    | none => simp [removeM, hg] at hs2
    | some lst =>
      simp only [removeM, hg] at hs2
      by_cases hm : o ∈ lst
      · rw [if_pos hm] at hs2
        injection hs2 with hs2
        subst hs2
        rw [noEmptyEntries_iff] at h ⊢
        intro t
        rcases eq_or_ne t o.layer with rfl | ht
        · rw [layerD_setLayerD_self]
          by_cases he : eraseFirst lst o = []
          · rw [if_pos he]
            exact dNoEmpty_dDel (h _)
          · rw [if_neg he]
            exact dNoEmpty_dSet (h _) he
        · rw [layerD_setLayerD_other _ _ ht]
          exact h t
      · rw [if_neg hm] at hs2
        cases hs2

/-- Witness for claim C1: the concrete reachable state `c1Start`
satisfies the invariant, and so does adding its monster again. -/
theorem c1_witness :
    noEmptyEntries c1Start = true ∧ noEmptyEntries (addM c1Start c1Mon) = true :=
  ⟨by decide, (c1_theorem c1Start c1Mon (by decide)).1⟩

/-! ## Claim C2 — moving onto a walk-cost-0 tile -/

/-- Counterexample to claim C2.  `c2Start` holds a floor at (1,1), a
`Wall` (walk cost 0, base-class `try_movement`) at (2,1) and a monster
at (1,1).  Moving the monster onto the wall does **not** raise
`InvalidMoveError`: the base `try_movement` returns `False`, Python adds
it to `r` as `0.0`, and the move completes, silently relocating the
monster onto the impassable cell. -/
theorem c2_counterexample :
    c2Wall.walk_cost = 0 ∧
    c2Wall ∈ findAllAtPos c2Start ⟨2, 1⟩ [.tileL] ∧
    (match moveM c2Start c2Mon ⟨2, 1⟩ with
     | .ok s2 _ => decide ({ c2Mon with pos := ⟨2, 1⟩ } ∈ (dGet s2.monstersD ⟨2, 1⟩).getD [])
     | _ => false) = true := by
  decide

/-- Every destination tile of the kind claim C2 is about (walk cost 0,
base-class `try_movement`) contributes `0.0` to the accumulated `r`. -/
theorem foldl_tmContrib_zero {l : List MObj}
    (h : ∀ d ∈ l, d.travers = true → d.tmOverride = none ∧ d.walk_cost = 0) :
    ∀ acc : Rat, l.foldl (fun acc d => acc + tmContrib d) acc = acc := by
  induction l with
  | nil => intro acc; rfl
  | cons a rest ih =>
    intro acc
    have hz : tmContrib a = 0 := by
      by_cases hta : a.travers = true
      · obtain ⟨h1, h2⟩ := h a (by simp) hta
        simp [tmContrib, hta, h1, h2]
      · simp [tmContrib, hta]
    simp only [List.foldl, hz, add_zero]
    exact ih (fun d hd => h d (by simp [hd])) acc

/-- Claim C2, amended: when the bounds check passes, every source tile
permits leaving, and every `Traversable` destination tile has the
base-class `try_movement` with walk cost 0, `Map.move` does **not**
raise — it completes, returns `0.0` (the accumulated movement budget is
zero), and the object ends up in the destination cell's occupant list.
`InvalidMoveError` can only come from the bounds check or from a source
tile's `try_leaving` veto. -/
theorem c2_theorem (s : MState) (o : MObj) (p : Pos)
    (hb : ¬(p.x > s.size.x ∨ p.x < 0 ∨ p.y > s.size.y ∨ p.y < 0))
    (hsrc : ((findAllAtPos s o.pos [.tileL]).all fun src => !src.travers || src.leaveOK) = true)
    (hdst : ∀ d ∈ findAllAtPos s p [.tileL], d.travers = true → d.tmOverride = none ∧ d.walk_cost = 0)
    (hmem : o ∈ (dGet (layerD s o.layer) o.pos).getD []) :
    ∃ s2, moveM s o p = MoveResult.ok s2 0 ∧
      { o with pos := p } ∈ (dGet (layerD s2 o.layer) p).getD [] := by
  have hr := foldl_tmContrib_zero hdst 0
  have hsrc2 : ¬((!((findAllAtPos s o.pos [.tileL]).all fun src => !src.travers || src.leaveOK)) = true) := by
    rw [hsrc]
    simp
  cases hg : dGet (layerD s o.layer) o.pos with
  | none =>
    rw [hg] at hmem
    simp at hmem
  | some lst =>
    rw [hg] at hmem
    simp only [Option.getD_some] at hmem
    refine ⟨setLayerD s o.layer
        (dAppend (dSet (layerD s o.layer) o.pos (eraseFirst lst o)) p { o with pos := p }),
      ?_, ?_⟩
    · simp only [moveM, hg]
      rw [if_neg hb, if_neg hsrc2, if_pos hmem, hr]
      simp [moveReturn]
    · rw [layerD_setLayerD_self, dGet_dAppend_self]
      simp

/-- Witness for claim C2's amended theorem at the concrete wall
scenario. -/
theorem c2_witness :
    ∃ s2, moveM c2Start c2Mon ⟨2, 1⟩ = MoveResult.ok s2 0 ∧
      { c2Mon with pos := (⟨2, 1⟩ : Pos) } ∈ (dGet (layerD s2 c2Mon.layer) ⟨2, 1⟩).getD [] :=
  c2_theorem c2Start c2Mon ⟨2, 1⟩ (by decide) (by decide) (by decide) (by decide)

/-! ## Claim C9 — add/remove round trip -/

/-- Counterexample to claim C9.  In `c9Start` the monster layer's cell
(1,1) holds `[c9O, c9A]` — the object `O = c9O` is already on the map,
with another occupant after it.  `add(O)` appends a second reference and
`remove(O)` removes the **first** occurrence, so the surviving list is
`[c9A, c9O]`: `find_all_at_pos` is not restored to its pre-add value. -/
theorem c9_counterexample :
    findAllAtPos c9Start ⟨1, 1⟩ [.monsterL] = [c9O, c9A] ∧
    ((removeM (addM c9Start c9O) c9O).map fun s2 => findAllAtPos s2 ⟨1, 1⟩ [.monsterL])
      = some [c9A, c9O] ∧
    ((removeM (addM c9Start c9O) c9O).map fun s2 => findAllAtPos s2 ⟨1, 1⟩ [.monsterL])
      ≠ some (findAllAtPos c9Start ⟨1, 1⟩ [.monsterL]) := by
  decide

/-- Claim C9, amended: provided the object is **not already present**
in its cell's occupant list (and the layer dictionary, being a model of
a Python dict, has no duplicate keys), `add(O)` followed by `remove(O)`
succeeds and restores `find_all_at_pos` at `O`'s position for every
layer. -/
theorem c9_theorem (s : MState) (o : MObj)
    (hnd : (dKeys (layerD s o.layer)).Nodup)
    (hno : o ∉ (dGet (layerD s o.layer) o.pos).getD []) :
    ∃ s2, removeM (addM s o) o = some s2 ∧
      ∀ t : LayerTag, findAllAtPos s2 o.pos [t] = findAllAtPos s o.pos [t] := by
  have hAdd : layerD (addM s o) o.layer = dAppend (layerD s o.layer) o.pos o := by
    unfold addM
    rw [layerD_setLayerD_self]
  have hGet : dGet (layerD (addM s o) o.layer) o.pos
      = some ((dGet (layerD s o.layer) o.pos).getD [] ++ [o]) := by
    rw [hAdd, dGet_dAppend_self]
  have hErase : eraseFirst ((dGet (layerD s o.layer) o.pos).getD [] ++ [o]) o
      = (dGet (layerD s o.layer) o.pos).getD [] := eraseFirst_append_not_mem hno
  have hMem : o ∈ (dGet (layerD s o.layer) o.pos).getD [] ++ [o] := by simp
  have hs2 : removeM (addM s o) o = some (setLayerD (addM s o) o.layer
      (if (dGet (layerD s o.layer) o.pos).getD [] = []
       then dDel (layerD (addM s o) o.layer) o.pos
       else dSet (layerD (addM s o) o.layer) o.pos
         ((dGet (layerD s o.layer) o.pos).getD []))) := by
    simp only [removeM, hGet]
    rw [if_pos hMem, hErase]
  refine ⟨_, hs2, ?_⟩
  intro t
  rw [findAllAtPos_single, findAllAtPos_single]
  rcases eq_or_ne t o.layer with rfl | ht
  · rw [layerD_setLayerD_self]
    by_cases hc : (dGet (layerD s o.layer) o.pos).getD [] = []
    · rw [if_pos hc, hAdd]
      cases hg : dGet (layerD s o.layer) o.pos with
      | none =>
        have ha : dAppend (layerD s o.layer) o.pos o = layerD s o.layer ++ [(o.pos, [o])] := by
          unfold dAppend
          rw [hg]
        rw [ha, dDel_append_of_none _ hg, hg]
      | some l0 =>
        have hl0 : l0 = [] := by
          rw [hg] at hc
          simpa using hc
        subst hl0
        have ha : dAppend (layerD s o.layer) o.pos o = dSet (layerD s o.layer) o.pos [o] := by
          unfold dAppend
          rw [hg]
          simp
        rw [ha, dGet_dDel_self_of_nodup (by rw [dKeys_dSet_of_mem _ hg]; exact hnd)]
        rfl
    · rw [if_neg hc, dGet_dSet_self]
      rfl
  · rw [layerD_setLayerD_other _ _ ht]
    unfold addM
    rw [layerD_setLayerD_other _ _ ht]

/-- Witness for claim C9's amended theorem: removing a freshly added
monster from a one-monster map restores the queries at its cell. -/
theorem c9_witness :
    ∃ s2, removeM (addM (addM emptyMap5 c9A) c9O) c9O = some s2 ∧
      ∀ t : LayerTag, findAllAtPos s2 c9O.pos [t] = findAllAtPos (addM emptyMap5 c9A) c9O.pos [t] :=
  c9_theorem (addM emptyMap5 c9A) c9O (by decide) (by decide)
